import Mathlib

/-!
Shallow embedding of the PouchDB-backed document service
(src/services/database.service.ts) and of the Vue presentation driver
(src/components/DatabaseManager.vue) of the COMEM InfraDon repository.

The external PouchDB store is modelled as an in-memory list of documents
behind a reachability flag.  Only the native store behaviours the service
relies upon are modelled: info as a liveness probe, get by id answering 404
on a missing document, put and remove guarded by the revision marker and
assigning a fresh revision on success, post assigning a fresh id and
revision, allDocs enumerating the documents (the native descending order of
the store is abstracted as the handle enumeration order, no claim depends
on it).  JavaScript string falsiness (the empty string is falsy) is
modelled wherever the source tests a string with a bang or a double bar.
The wall clock used for new Date().toISOString() is passed in as an
explicit string argument.
-/

/-- Error raised by the underlying store.  PouchDB errors carry an optional
HTTP-like status code. -/
structure StoreErr where
  status : Option Nat
  deriving Repr, DecidableEq

/-- A document as held by the store: identifier, revision marker, the two
user fields of this application and the creation timestamp
(src/types/database.types wire shape). -/
structure StoredDoc where
  _id : String
  _rev : String
  title : String
  content : String
  createdAt : String
  deriving Repr, DecidableEq

/-- The fields handed to the store by post: a document without id and
revision (Omit of _id and _rev). -/
structure NewDoc where
  title : String
  content : String
  createdAt : Option String
  deriving Repr, DecidableEq

/-- Response of a store write: the id of the written document and its new
revision marker. -/
structure StorePostResp where
  id : String
  rev : String
  deriving Repr, DecidableEq

/-- The external PouchDB store behind one handle: a reachability flag, the
optional status its connectivity errors carry, the stored documents and a
counter from which fresh ids and revisions are minted. -/
structure Store where
  reachable : Bool
  failStatus : Option Nat
  docs : List StoredDoc
  seq : Nat
  deriving Repr, DecidableEq

/-- Liveness probe, db.info(): succeeds exactly when the store is
reachable. -/
def Store.info (st : Store) : Except StoreErr Unit :=
  if st.reachable then .ok () else .error ⟨st.failStatus⟩

/-- db.get(id): the document with that id, a 404 error when none exists. -/
def Store.get (st : Store) (id : String) : Except StoreErr StoredDoc :=
  if st.reachable then
    match st.docs.find? (fun d => d._id == id) with
    | some d => .ok d
    | none => .error ⟨some 404⟩
  else .error ⟨st.failStatus⟩

/-- db.post(fields): inserts a new document under a fresh id with a fresh
first revision. -/
def Store.post (st : Store) (fields : NewDoc) (createdAt : String) :
    Except StoreErr (StorePostResp × Store) :=
  if st.reachable then
    let id := "id-" ++ toString st.seq
    let rev := "1-" ++ toString st.seq
    .ok (⟨id, rev⟩,
      { st with
        docs := ⟨id, rev, fields.title, fields.content, createdAt⟩ :: st.docs
        seq := st.seq + 1 })
  else .error ⟨st.failStatus⟩

/-- db.put(doc): optimistic-concurrency replacement.  The write succeeds
only when a document with that id exists and the presented revision marker
matches its current one; the store then assigns a fresh revision. -/
def Store.put (st : Store) (doc : StoredDoc) :
    Except StoreErr (StorePostResp × Store) :=
  if st.reachable then
    match st.docs.find? (fun d => d._id == doc._id) with
    | some cur =>
      if cur._rev = doc._rev then
        let newRev := "rev-" ++ toString st.seq
        .ok (⟨doc._id, newRev⟩,
          { st with
            docs := st.docs.map (fun d =>
              if d._id == doc._id then { doc with _rev := newRev } else d)
            seq := st.seq + 1 })
      else .error ⟨some 409⟩
    | none => .error ⟨some 404⟩
  else .error ⟨st.failStatus⟩

/-- db.remove(doc): deletes the document addressed by the id and revision
of the presented document. -/
def Store.remove (st : Store) (doc : StoredDoc) :
    Except StoreErr (StorePostResp × Store) :=
  if st.reachable then
    match st.docs.find? (fun d => d._id == doc._id) with
    | some cur =>
      if cur._rev = doc._rev then
        .ok (⟨doc._id, "del-" ++ toString st.seq⟩,
          { st with
            docs := st.docs.filter (fun d => d._id != doc._id)
            seq := st.seq + 1 })
      else .error ⟨some 409⟩
    | none => .error ⟨some 404⟩
  else .error ⟨st.failStatus⟩

/-- db.allDocs(...).rows.map(row => row.doc): every stored document. -/
def Store.allDocs (st : Store) : Except StoreErr (List StoredDoc) :=
  if st.reachable then .ok st.docs else .error ⟨st.failStatus⟩

/-- The uniform error shape built by DatabaseService.handleError:
status, message and the underlying cause (field error in the source). -/
structure DatabaseError where
  status : Nat
  message : String
  error : Option StoreErr
  deriving Repr, DecidableEq

/-- The response shape of the mutating service operations. -/
structure DatabaseResponse where
  ok : Bool
  id : String
  rev : String
  deriving Repr, DecidableEq

/-- Fields of a Partial DatabaseDocument handed to updateDocument: every
field may be supplied or left out. -/
structure UpdateFields where
  _id : Option String
  _rev : Option String
  title : Option String
  content : Option String
  createdAt : Option String
  deriving Repr, DecidableEq

/-- The private state of a DatabaseService instance: the nullable PouchDB
handle (this.db).  A connected handle owns the store it reaches. -/
structure ServiceState where
  db : Option Store
  deriving Repr, DecidableEq

/-- handleError(message, error?): logs and returns the uniform error shape;
the status is the one of the cause when that is present and truthy
(JavaScript double-bar), 500 otherwise. -/
def DatabaseService.handleError (message : String) (error : Option StoreErr) :
    DatabaseError :=
  { status :=
      match error with
      | some e =>
        match e.status with
        | some s => if s = 0 then 500 else s
        | none => 500
      | none => 500
    message := message
    error := error }

/-- initialize(): this.db = new PouchDB(dbUrl) then await this.db.info().
The catch block calls handleError but does not throw its result, so the
returned value is discarded and the method resolves either way. -/
def DatabaseService.initialize (store : Store) (s : ServiceState) :
    Except DatabaseError Unit × ServiceState :=
  let s' : ServiceState := { s with db := some store }
  match store.info with
  | .ok _ => (.ok (), s')
  | .error e =>
    let _discarded := DatabaseService.handleError "Failed to initialize database" (some e)
    (.ok (), s')

/-- JavaScript document.createdAt || new Date().toISOString(): the empty
string is falsy, so a missing or empty createdAt is replaced by the clock
string. -/
def effectiveCreatedAt (createdAt : Option String) (now : String) : String :=
  match createdAt with
  | some c => if c = "" then now else c
  | none => now

/-- createDocument(document): guard on this.db, then db.post with createdAt
defaulted, returning the ok/id/rev shape. -/
def DatabaseService.createDocument (s : ServiceState) (document : NewDoc)
    (now : String) : Except DatabaseError DatabaseResponse × ServiceState :=
  match s.db with
  | none => (.error (DatabaseService.handleError "Database not initialized" none), s)
  | some store =>
    match store.post document (effectiveCreatedAt document.createdAt now) with
    | .ok (resp, store') =>
      (.ok ⟨true, resp.id, resp.rev⟩, { s with db := some store' })
    | .error e =>
      (.error (DatabaseService.handleError "Failed to create document" (some e)), s)

/-- getAllDocuments(): guard on this.db, then db.allDocs mapped to the
documents. -/
def DatabaseService.getAllDocuments (s : ServiceState) :
    Except DatabaseError (List StoredDoc) :=
  match s.db with
  | none => .error (DatabaseService.handleError "Database not initialized" none)
  | some store =>
    match store.allDocs with
    | .ok docs => .ok docs
    | .error e =>
      .error (DatabaseService.handleError "Failed to fetch documents" (some e))

/-- getDocumentById(id): guard on this.db, then db.get. -/
def DatabaseService.getDocumentById (s : ServiceState) (id : String) :
    Except DatabaseError StoredDoc :=
  match s.db with
  | none => .error (DatabaseService.handleError "Database not initialized" none)
  | some store =>
    match store.get id with
    | .ok doc => .ok doc
    | .error e =>
      .error (DatabaseService.handleError
        ("Failed to fetch document with id " ++ id) (some e))

/-- The JavaScript object spread of the supplied fields over the existing
document: a supplied field wins, a field left out keeps its existing
value. -/
def spreadMerge (existingDoc : StoredDoc) (p : UpdateFields) : StoredDoc :=
  { _id := p._id.getD existingDoc._id
    _rev := p._rev.getD existingDoc._rev
    title := p.title.getD existingDoc.title
    content := p.content.getD existingDoc.content
    createdAt := p.createdAt.getD existingDoc.createdAt }

/-- The document updateDocument hands to db.put: the spread of the supplied
fields over the existing document, with _id forced to the requested id and
_rev forced to the just-read revision. -/
def DatabaseService.updatePutDoc (existingDoc : StoredDoc) (id : String)
    (p : UpdateFields) : StoredDoc :=
  { spreadMerge existingDoc p with _id := id, _rev := existingDoc._rev }

/-- updateDocument(id, document): guard on this.db, read the current
document, put back the merged document carrying the requested id and the
just-read revision. -/
def DatabaseService.updateDocument (s : ServiceState) (id : String)
    (document : UpdateFields) :
    Except DatabaseError DatabaseResponse × ServiceState :=
  match s.db with
  | none => (.error (DatabaseService.handleError "Database not initialized" none), s)
  | some store =>
    match store.get id with
    | .error e =>
      (.error (DatabaseService.handleError
        ("Failed to update document with id " ++ id) (some e)), s)
    | .ok existingDoc =>
      match store.put (DatabaseService.updatePutDoc existingDoc id document) with
      | .ok (resp, store') =>
        (.ok ⟨true, resp.id, resp.rev⟩, { s with db := some store' })
      | .error e =>
        (.error (DatabaseService.handleError
          ("Failed to update document with id " ++ id) (some e)), s)

/-- deleteDocument(id): guard on this.db, read the document, remove it by
the id and revision it carries. -/
def DatabaseService.deleteDocument (s : ServiceState) (id : String) :
    Except DatabaseError DatabaseResponse × ServiceState :=
  match s.db with
  | none => (.error (DatabaseService.handleError "Database not initialized" none), s)
  | some store =>
    match store.get id with
    | .error e =>
      (.error (DatabaseService.handleError
        ("Failed to delete document with id " ++ id) (some e)), s)
    | .ok doc =>
      match store.remove doc with
      | .ok (resp, store') =>
        (.ok ⟨true, resp.id, resp.rev⟩, { s with db := some store' })
      | .error e =>
        (.error (DatabaseService.handleError
          ("Failed to delete document with id " ++ id) (some e)), s)

/-- close(): releases the handle when one is open; closing twice is a
no-op. -/
def DatabaseService.close (s : ServiceState) : ServiceState :=
  match s.db with
  | some _ => { s with db := none }
  | none => s

/-- The document currently readable at an id through a service state, when
the handle is open and the read succeeds.  Observation helper for stating
properties about stored content. -/
def ServiceState.docAt (s : ServiceState) (id : String) : Option StoredDoc :=
  match s.db with
  | some store => (store.get id).toOption
  | none => none

/-- Severity of the status message of the driver. -/
inductive StatusType where
  | info
  | success
  | error
  deriving Repr, DecidableEq

/-- The reactive state of the DatabaseManager component: document list,
form fields of the new document, status message with severity, loading
flag and the nullable service instance. -/
structure DriverState where
  documents : List StoredDoc
  newTitle : String
  newContent : String
  statusMessage : String
  statusType : StatusType
  isLoading : Bool
  databaseService : Option ServiceState
  deriving Repr, DecidableEq

/-- updateStatus(message, type). -/
def DatabaseManager.updateStatus (st : DriverState) (message : String)
    (type : StatusType) : DriverState :=
  { st with statusMessage := message, statusType := type }

/-- fetchDocuments(): early return on a null service; otherwise set the
loading flag, replace the list with getAllDocuments and report the count on
success, report the error message on failure, and clear the loading flag in
the finally block either way. -/
def DatabaseManager.fetchDocuments (st : DriverState) : DriverState :=
  match st.databaseService with
  | none => st
  | some svc =>
    let st1 := { st with isLoading := true }
    match DatabaseService.getAllDocuments svc with
    | .ok docs =>
      let st2 := { st1 with documents := docs }
      let st3 := DatabaseManager.updateStatus st2
        (toString docs.length ++ " documents loaded") .success
      { st3 with isLoading := false }
    | .error e =>
      let st2 := DatabaseManager.updateStatus st1 e.message .error
      { st2 with isLoading := false }

/-- addDocument(): validate the two form fields first (JavaScript bang on a
string: empty means missing); then early return on a null service; then set
the loading flag, create the document with the clock as createdAt, on
success report success, clear the form fields and refresh the list, on
failure report the error message; clear the loading flag in the finally
block either way. -/
def DatabaseManager.addDocument (st : DriverState) (now : String) : DriverState :=
  if st.newTitle == "" || st.newContent == "" then
    DatabaseManager.updateStatus st "Title and content are required" .error
  else
    match st.databaseService with
    | none => st
    | some svc =>
      let st1 := { st with isLoading := true }
      match DatabaseService.createDocument svc
          ⟨st.newTitle, st.newContent, some now⟩ now with
      | (.ok _, svc') =>
        let st2 := { st1 with databaseService := some svc' }
        let st3 := DatabaseManager.updateStatus st2 "Document added successfully" .success
        let st4 := { st3 with newTitle := "", newContent := "" }
        let st5 := DatabaseManager.fetchDocuments st4
        { st5 with isLoading := false }
      | (.error e, svc') =>
        let st2 := { st1 with databaseService := some svc' }
        let st3 := DatabaseManager.updateStatus st2 e.message .error
        { st3 with isLoading := false }

/-- deleteDocument(id) of the component: early return on a null service;
otherwise set the loading flag, delete through the service, on success
report success and refresh the list, on failure report the error message;
clear the loading flag in the finally block either way. -/
def DatabaseManager.deleteDocument (st : DriverState) (id : String) : DriverState :=
  match st.databaseService with
  | none => st
  | some svc =>
    let st1 := { st with isLoading := true }
    match DatabaseService.deleteDocument svc id with
    | (.ok _, svc') =>
      let st2 := { st1 with databaseService := some svc' }
      let st3 := DatabaseManager.updateStatus st2 "Document deleted successfully" .success
      let st4 := DatabaseManager.fetchDocuments st3
      { st4 with isLoading := false }
    | (.error e, svc') =>
      let st2 := { st1 with databaseService := some svc' }
      let st3 := DatabaseManager.updateStatus st2 e.message .error
      { st3 with isLoading := false }

/-- Claim C1: against a store whose liveness probe fails, initialize does
NOT reject: its catch block builds the uniform error through handleError
but never throws the result, so the call resolves successfully with the
handle set.  This evaluates the code on the failing input of the claim. -/
theorem initialize_swallows_liveness_failure (fs : Option Nat)
    (docs : List StoredDoc) (seq : Nat) (s : ServiceState) :
    DatabaseService.initialize ⟨false, fs, docs, seq⟩ s =
      (.ok (), ⟨some ⟨false, fs, docs, seq⟩⟩) := rfl

/-- Claim C3: with the handle null (before initialize has run, or after
close has nulled it), each of the five document operations rejects with the
uniform Database not initialized error (status 500, no cause) and leaves
the service state untouched, so no store call is made; close on an open
handle nulls it and close on a closed one is a no-op. -/
theorem not_initialized_ops_reject :
    (∀ fields now, DatabaseService.createDocument ⟨none⟩ fields now =
      (.error ⟨500, "Database not initialized", none⟩, ⟨none⟩)) ∧
    (DatabaseService.getAllDocuments ⟨none⟩ =
      .error ⟨500, "Database not initialized", none⟩) ∧
    (∀ id, DatabaseService.getDocumentById ⟨none⟩ id =
      .error ⟨500, "Database not initialized", none⟩) ∧
    (∀ id p, DatabaseService.updateDocument ⟨none⟩ id p =
      (.error ⟨500, "Database not initialized", none⟩, ⟨none⟩)) ∧
    (∀ id, DatabaseService.deleteDocument ⟨none⟩ id =
      (.error ⟨500, "Database not initialized", none⟩, ⟨none⟩)) ∧
    (∀ store, DatabaseService.close ⟨some store⟩ = ⟨none⟩) ∧
    DatabaseService.close ⟨none⟩ = ⟨none⟩ :=
  ⟨fun _ _ => rfl, rfl, fun _ => rfl, fun _ _ => rfl, fun _ => rfl,
   fun _ => rfl, rfl⟩

/-- Claim C2: when the handle is open and the read of the id succeeds,
updateDocument writes back exactly the shallow merge of the supplied
fields over the existing document (supplied fields win, unspecified fields
keep their prior values), carrying the requested id and the just-read
revision, with any supplied _id or _rev discarded; the operation is that
read followed by the put of that document. -/
theorem updateDocument_merge (store : Store) (id : String) (p : UpdateFields)
    (existingDoc : StoredDoc) (h : store.get id = .ok existingDoc) :
    DatabaseService.updatePutDoc existingDoc id p =
      ⟨id, existingDoc._rev, p.title.getD existingDoc.title,
       p.content.getD existingDoc.content,
       p.createdAt.getD existingDoc.createdAt⟩ ∧
    DatabaseService.updateDocument ⟨some store⟩ id p =
      (match store.put (DatabaseService.updatePutDoc existingDoc id p) with
       | .ok (resp, store') => (.ok ⟨true, resp.id, resp.rev⟩, ⟨some store'⟩)
       | .error e =>
         (.error (DatabaseService.handleError
           ("Failed to update document with id " ++ id) (some e)),
          ⟨some store⟩)) := by
  constructor
  · rfl
  · simp only [DatabaseService.updateDocument, h]

/-- Witness for claim C2 at a concrete store holding one document and an
update that supplies _id, _rev and title: the written document discards
the supplied _id and _rev, takes the supplied title and keeps the prior
content and createdAt. -/
theorem updateDocument_merge_witness :
    DatabaseService.updatePutDoc ⟨"a", "1-0", "t", "c", "2020"⟩ "a"
        ⟨some "zz", some "9-9", some "T2", none, none⟩ =
      ⟨"a", "1-0", "T2", "c", "2020"⟩ :=
  (updateDocument_merge ⟨true, none, [⟨"a", "1-0", "t", "c", "2020"⟩], 3⟩ "a"
    ⟨some "zz", some "9-9", some "T2", none, none⟩
    ⟨"a", "1-0", "t", "c", "2020"⟩ rfl).1

/-- Claim C7: when the new-document title or content is empty, addDocument
only sets the error status Title and content are required; the whole
remaining driver state (form fields, document list, loading flag, service
instance) is returned unchanged, so no store call is made. -/
theorem addDocument_validation_no_store_call (st : DriverState) (now : String)
    (h : st.newTitle = "" ∨ st.newContent = "") :
    DatabaseManager.addDocument st now =
      { st with statusMessage := "Title and content are required",
                statusType := StatusType.error } := by
  unfold DatabaseManager.addDocument
  have hc : (st.newTitle == "" || st.newContent == "") = true := by
    cases h with
    | inl h1 => simp [h1]
    | inr h2 => simp [h2]
  rw [if_pos hc]
  rfl

/-- Witness for claim C7: empty title with a live service instance and a
nonempty store; only the status changes. -/
theorem addDocument_validation_no_store_call_witness :
    DatabaseManager.addDocument
        ⟨[⟨"a", "1-0", "t", "c", "2020"⟩], "", "body", "old", .info, false,
         some ⟨some ⟨true, none, [⟨"a", "1-0", "t", "c", "2020"⟩], 1⟩⟩⟩ "NOW" =
      ⟨[⟨"a", "1-0", "t", "c", "2020"⟩], "", "body",
       "Title and content are required", .error, false,
       some ⟨some ⟨true, none, [⟨"a", "1-0", "t", "c", "2020"⟩], 1⟩⟩⟩ :=
  addDocument_validation_no_store_call _ "NOW" (Or.inl rfl)

/-- Claim C9: when the underlying getAll call of a refresh fails, the
in-memory document list is left exactly as it was before the refresh and
the status is set to the error message of the failure. -/
theorem fetchDocuments_failure_preserves_documents (st : DriverState)
    (svc : ServiceState) (e : DatabaseError)
    (h : st.databaseService = some svc)
    (hf : DatabaseService.getAllDocuments svc = .error e) :
    (DatabaseManager.fetchDocuments st).documents = st.documents ∧
    (DatabaseManager.fetchDocuments st).statusMessage = e.message ∧
    (DatabaseManager.fetchDocuments st).statusType = StatusType.error := by
  simp only [DatabaseManager.fetchDocuments, h, hf]
  exact ⟨rfl, rfl, rfl⟩

/-- Witness for claim C9: a refresh against an unreachable store keeps the
previously fetched single-document list and reports the fetch failure. -/
theorem fetchDocuments_failure_preserves_documents_witness :
    (DatabaseManager.fetchDocuments
        ⟨[⟨"a", "1-0", "t", "c", "2020"⟩], "", "", "1 documents loaded",
         .success, false, some ⟨some ⟨false, none, [], 0⟩⟩⟩).documents =
      [⟨"a", "1-0", "t", "c", "2020"⟩] ∧
    (DatabaseManager.fetchDocuments
        ⟨[⟨"a", "1-0", "t", "c", "2020"⟩], "", "", "1 documents loaded",
         .success, false, some ⟨some ⟨false, none, [], 0⟩⟩⟩).statusMessage =
      "Failed to fetch documents" :=
  have h := fetchDocuments_failure_preserves_documents
    ⟨[⟨"a", "1-0", "t", "c", "2020"⟩], "", "", "1 documents loaded",
     .success, false, some ⟨some ⟨false, none, [], 0⟩⟩⟩
    ⟨some ⟨false, none, [], 0⟩⟩
    ⟨500, "Failed to fetch documents", some ⟨none⟩⟩ rfl rfl
  ⟨h.1, h.2.1⟩

/-- Claim C10: when the service instance is null, fetchDocuments and
deleteDocument return the driver state unchanged, and so does addDocument
once its field validation passes: no status change, no list change, no
loading-flag change, no error surfaces. -/
theorem null_service_actions_noop (st : DriverState) (now id : String)
    (h : st.databaseService = none) :
    DatabaseManager.fetchDocuments st = st ∧
    (st.newTitle ≠ "" → st.newContent ≠ "" →
      DatabaseManager.addDocument st now = st) ∧
    DatabaseManager.deleteDocument st id = st := by
  refine ⟨?_, ?_, ?_⟩
  · unfold DatabaseManager.fetchDocuments
    rw [h]
  · intro ht hc
    unfold DatabaseManager.addDocument
    have hcond : ¬ ((st.newTitle == "" || st.newContent == "") = true) := by
      simp [ht, hc]
    rw [if_neg hcond, h]
  · unfold DatabaseManager.deleteDocument
    rw [h]

/-- Witness for claim C10: with a null service instance and filled form
fields, all three actions leave the concrete state untouched. -/
theorem null_service_actions_noop_witness :
    DatabaseManager.fetchDocuments
        ⟨[], "t", "c", "m", .info, false, none⟩ =
      ⟨[], "t", "c", "m", .info, false, none⟩ ∧
    DatabaseManager.addDocument
        ⟨[], "t", "c", "m", .info, false, none⟩ "NOW" =
      ⟨[], "t", "c", "m", .info, false, none⟩ ∧
    DatabaseManager.deleteDocument
        ⟨[], "t", "c", "m", .info, false, none⟩ "x" =
      ⟨[], "t", "c", "m", .info, false, none⟩ :=
  have h := null_service_actions_noop
    ⟨[], "t", "c", "m", .info, false, none⟩ "NOW" "x" rfl
  ⟨h.1, h.2.1 (by decide) (by decide), h.2.2⟩

/-- Claim C8: with a service instance present (the situation in which a
store call is made), each driver action ends with the loading flag false,
whatever the outcome of the underlying store calls: the finally block of
refresh, of add past its field validation, and of delete clears it on
every path. -/
theorem actions_reset_isLoading (st : DriverState) (svc : ServiceState)
    (now id : String) (h : st.databaseService = some svc) :
    (DatabaseManager.fetchDocuments st).isLoading = false ∧
    (st.newTitle ≠ "" → st.newContent ≠ "" →
      (DatabaseManager.addDocument st now).isLoading = false) ∧
    (DatabaseManager.deleteDocument st id).isLoading = false := by
  refine ⟨?_, ?_, ?_⟩
  · simp only [DatabaseManager.fetchDocuments, h]
    split <;> rfl
  · intro ht hc
    have hcond : ¬ ((st.newTitle == "" || st.newContent == "") = true) := by
      simp [ht, hc]
    simp only [DatabaseManager.addDocument, if_neg hcond, h]
    split <;> rfl
  · simp only [DatabaseManager.deleteDocument, h]
    split <;> rfl

/-- Witness for claim C8 at a concrete connected driver state: all three
actions end with the loading flag clear. -/
theorem actions_reset_isLoading_witness :
    (DatabaseManager.fetchDocuments
        ⟨[], "t", "c", "", .info, false,
         some ⟨some ⟨true, none, [], 0⟩⟩⟩).isLoading = false ∧
    (DatabaseManager.addDocument
        ⟨[], "t", "c", "", .info, false,
         some ⟨some ⟨true, none, [], 0⟩⟩⟩ "NOW").isLoading = false ∧
    (DatabaseManager.deleteDocument
        ⟨[], "t", "c", "", .info, false,
         some ⟨some ⟨true, none, [], 0⟩⟩⟩ "x").isLoading = false :=
  have h := actions_reset_isLoading
    ⟨[], "t", "c", "", .info, false, some ⟨some ⟨true, none, [], 0⟩⟩⟩
    ⟨some ⟨true, none, [], 0⟩⟩ "NOW" "x" rfl
  ⟨h.1, h.2.1 (by decide) (by decide), h.2.2⟩

/-- Claim C5: deleteDocument reads the document first and then removes it
by the id and revision that read returned; when no document with the id
exists on a reachable store, the read answers 404 and the operation
rejects with the uniform write-failure error carrying that not-found
status, leaving the store untouched. -/
theorem deleteDocument_read_then_remove (store : Store) (id : String) :
    (store.reachable = true →
      store.docs.find? (fun d => d._id == id) = none →
      DatabaseService.deleteDocument ⟨some store⟩ id =
        (.error ⟨404, "Failed to delete document with id " ++ id, some ⟨some 404⟩⟩,
         ⟨some store⟩)) ∧
    (∀ doc, store.get id = .ok doc →
      DatabaseService.deleteDocument ⟨some store⟩ id =
        (match store.remove doc with
         | .ok (resp, store') => (.ok ⟨true, resp.id, resp.rev⟩, ⟨some store'⟩)
         | .error e =>
           (.error (DatabaseService.handleError
             ("Failed to delete document with id " ++ id) (some e)),
            ⟨some store⟩))) := by
  constructor
  · intro hr hf
    have hg : store.get id = .error ⟨some 404⟩ := by
      unfold Store.get
      rw [if_pos hr, hf]
    simp only [DatabaseService.deleteDocument, hg]
    rfl
  · intro doc hdoc
    simp only [DatabaseService.deleteDocument, hdoc]

/-- Witness for claim C5: deleting a missing id on a reachable empty store
rejects with the 404-carrying uniform error. -/
theorem deleteDocument_read_then_remove_witness :
    DatabaseService.deleteDocument ⟨some ⟨true, none, [], 7⟩⟩ "missing" =
      (.error ⟨404, "Failed to delete document with id missing", some ⟨some 404⟩⟩,
       ⟨some ⟨true, none, [], 7⟩⟩) :=
  (deleteDocument_read_then_remove ⟨true, none, [], 7⟩ "missing").1 rfl rfl

/-- Counterexample to claim C6 as stated: a supplied empty-string createdAt
is NOT stored as given; the JavaScript double-bar treats it as falsy and
replaces it with the clock string. -/
theorem createDocument_empty_createdAt_cex :
    (ServiceState.docAt
        (DatabaseService.createDocument ⟨some ⟨true, none, [], 0⟩⟩
          ⟨"A", "B", some ""⟩ "NOW").2 "id-0").map StoredDoc.createdAt =
      some "NOW" ∧ (some "NOW" : Option String) ≠ some "" :=
  ⟨rfl, by decide⟩

/-- Claim C6 amended: on a reachable store, createDocument returns the
ok/id/rev response and stores the document under the fresh id with
createdAt equal to the clock string when the field is missing, equal to
the supplied value when that value is nonempty, the empty string being
treated as missing. -/
theorem createDocument_createdAt_default (store : Store) (fields : NewDoc)
    (now : String) (hr : store.reachable = true) :
    (DatabaseService.createDocument ⟨some store⟩ fields now).1 =
      .ok ⟨true, "id-" ++ toString store.seq, "1-" ++ toString store.seq⟩ ∧
    ServiceState.docAt (DatabaseService.createDocument ⟨some store⟩ fields now).2
        ("id-" ++ toString store.seq) =
      some ⟨"id-" ++ toString store.seq, "1-" ++ toString store.seq,
            fields.title, fields.content,
            effectiveCreatedAt fields.createdAt now⟩ ∧
    (fields.createdAt = none → effectiveCreatedAt fields.createdAt now = now) ∧
    (∀ c, fields.createdAt = some c → c ≠ "" →
      effectiveCreatedAt fields.createdAt now = c) := by
  have hpost : store.post fields (effectiveCreatedAt fields.createdAt now) =
      .ok (⟨"id-" ++ toString store.seq, "1-" ++ toString store.seq⟩,
        { store with
          docs := ⟨"id-" ++ toString store.seq, "1-" ++ toString store.seq,
                   fields.title, fields.content,
                   effectiveCreatedAt fields.createdAt now⟩ :: store.docs
          seq := store.seq + 1 }) := by
    unfold Store.post
    rw [if_pos hr]
  refine ⟨?_, ?_, ?_, ?_⟩
  · simp only [DatabaseService.createDocument, hpost]
  · simp only [DatabaseService.createDocument, hpost, ServiceState.docAt,
      Store.get]
    rw [if_pos hr]
    simp [List.find?]
    rfl
  · intro hnone
    rw [hnone]
    rfl
  · intro c hc hne
    rw [hc]
    unfold effectiveCreatedAt
    simp [hne]

/-- Witness for claim C6 amended: creating with no createdAt on a fresh
reachable store returns ok with the minted id and revision, and the stored
document carries the clock string. -/
theorem createDocument_createdAt_default_witness :
    (DatabaseService.createDocument ⟨some ⟨true, none, [], 0⟩⟩
        ⟨"A", "B", none⟩ "NOW").1 = .ok ⟨true, "id-0", "1-0"⟩ ∧
    ServiceState.docAt
        (DatabaseService.createDocument ⟨some ⟨true, none, [], 0⟩⟩
          ⟨"A", "B", none⟩ "NOW").2 "id-0" =
      some ⟨"id-0", "1-0", "A", "B", "NOW"⟩ :=
  have h := createDocument_createdAt_default ⟨true, none, [], 0⟩
    ⟨"A", "B", none⟩ "NOW" rfl
  ⟨h.1, h.2.1⟩

/-- A successful get means the store is reachable and find? located the
document. -/
theorem get_ok_elim (store : Store) (id : String) (doc : StoredDoc)
    (h : store.get id = .ok doc) :
    store.reachable = true ∧
    store.docs.find? (fun d => d._id == id) = some doc := by
  unfold Store.get at h
  by_cases hr : store.reachable = true
  · rw [if_pos hr] at h
    cases hfind : store.docs.find? (fun d => d._id == id) with
    | none => rw [hfind] at h; exact absurd h (by simp)
    | some d =>
      rw [hfind] at h
      injection h with h2
      subst h2
      exact ⟨hr, rfl⟩
  · rw [if_neg hr] at h
    exact absurd h (by simp)

/-- A successful put means the store was reachable and the new store is the
old one with the found document replaced in place by the written document
under a fresh revision. -/
theorem put_ok_elim (store : Store) (doc : StoredDoc) (resp : StorePostResp)
    (store' : Store) (h : store.put doc = .ok (resp, store')) :
    store' =
      { store with
        docs := store.docs.map (fun d =>
          if d._id == doc._id then
            { doc with _rev := "rev-" ++ toString store.seq }
          else d)
        seq := store.seq + 1 } := by
  unfold Store.put at h
  split at h
  · split at h
    · split at h
      · cases h
        rfl
      · exact absurd h (by simp)
    · exact absurd h (by simp)
  · exact absurd h (by simp)

/-- Replacing, in place, every document carrying a key by a fixed document
carrying that same key keeps find? on that key pointing at the replacement,
provided the key was present. -/
theorem find?_map_replace (l : List StoredDoc) (q : String) (nd : StoredDoc)
    (hnd : (nd._id == q) = true) (ex : StoredDoc)
    (h : l.find? (fun d => d._id == q) = some ex) :
    (l.map (fun d => if d._id == q then nd else d)).find?
      (fun d => d._id == q) = some nd := by
  induction l with
  | nil => simp at h
  | cons d tl ih =>
    rw [List.map_cons]
    by_cases hd : (d._id == q) = true
    · rw [if_pos hd]
      simp only [List.find?]
      rw [hnd]
    · rw [if_neg hd]
      have hd' : (d._id == q) = false := by simpa using hd
      simp only [List.find?] at h ⊢
      rw [hd'] at h ⊢
      exact ih h

/-- The forced id of the document written back by updateDocument. -/
theorem updatePutDoc_id (existingDoc : StoredDoc) (id : String)
    (p : UpdateFields) :
    (DatabaseService.updatePutDoc existingDoc id p)._id = id := rfl

/-- The createdAt of the document written back by updateDocument is the
supplied one when present, the existing one otherwise. -/
theorem updatePutDoc_createdAt (existingDoc : StoredDoc) (id : String)
    (p : UpdateFields) :
    (DatabaseService.updatePutDoc existingDoc id p).createdAt =
      p.createdAt.getD existingDoc.createdAt := rfl

/-- Counterexample to claim C4 as stated: an update whose supplied fields
contain a createdAt value does overwrite the stored createdAt, because the
object spread lets every supplied field win, createdAt included. -/
theorem updateDocument_overwrites_createdAt_cex :
    ServiceState.docAt
        ⟨some ⟨true, none, [⟨"a", "1-0", "t", "c", "2020"⟩], 3⟩⟩ "a" =
      some ⟨"a", "1-0", "t", "c", "2020"⟩ ∧
    (ServiceState.docAt
        (DatabaseService.updateDocument
          ⟨some ⟨true, none, [⟨"a", "1-0", "t", "c", "2020"⟩], 3⟩⟩ "a"
          ⟨none, none, none, none, some "2030"⟩).2 "a").map
        StoredDoc.createdAt = some "2030" ∧
    (some "2030" : Option String) ≠ some "2020" :=
  ⟨rfl, rfl, by decide⟩

/-- Claim C4 amended: whenever the supplied update fields do NOT contain a
createdAt value, the document readable at the id after updateDocument
completes (on the success path and on the failure path alike) carries the
same createdAt as the document read before the update. -/
theorem updateDocument_preserves_createdAt_of_absent (store : Store)
    (id : String) (p : UpdateFields) (existingDoc afterDoc : StoredDoc)
    (h : store.get id = .ok existingDoc) (hp : p.createdAt = none)
    (h2 : ServiceState.docAt
      (DatabaseService.updateDocument ⟨some store⟩ id p).2 id = some afterDoc) :
    afterDoc.createdAt = existingDoc.createdAt := by
  obtain ⟨hr, hfind⟩ := get_ok_elim store id existingDoc h
  simp only [DatabaseService.updateDocument, h] at h2
  cases hput : store.put (DatabaseService.updatePutDoc existingDoc id p) with
  | error e =>
    rw [hput] at h2
    simp only [ServiceState.docAt] at h2
    rw [h] at h2
    have h3 : (some existingDoc : Option StoredDoc) = some afterDoc := h2
    injection h3 with h4
    rw [← h4]
  | ok rs =>
    obtain ⟨resp, store'⟩ := rs
    rw [hput] at h2
    have hst := put_ok_elim store (DatabaseService.updatePutDoc existingDoc id p)
      resp store' hput
    subst hst
    simp only [ServiceState.docAt, Store.get, updatePutDoc_id] at h2
    rw [if_pos hr] at h2
    have hfind2 := find?_map_replace store.docs id
      { DatabaseService.updatePutDoc existingDoc id p with
        _rev := "rev-" ++ toString store.seq }
      (by simp [updatePutDoc_id]) existingDoc hfind
    simp only [DatabaseService.updatePutDoc, spreadMerge] at h2 hfind2
    rw [hfind2] at h2
    have h3 : (some { DatabaseService.updatePutDoc existingDoc id p with
        _rev := "rev-" ++ toString store.seq } : Option StoredDoc) =
        some afterDoc := h2
    injection h3 with h4
    rw [← h4]
    simp [updatePutDoc_createdAt, hp]

/-- Witness for claim C4 amended: updating only the title leaves the
stored createdAt at its prior value. -/
theorem updateDocument_preserves_createdAt_of_absent_witness :
    StoredDoc.createdAt ⟨"a", "rev-3", "T2", "c", "2020"⟩ =
      StoredDoc.createdAt ⟨"a", "1-0", "t", "c", "2020"⟩ :=
  updateDocument_preserves_createdAt_of_absent
    ⟨true, none, [⟨"a", "1-0", "t", "c", "2020"⟩], 3⟩ "a"
    ⟨none, none, some "T2", none, none⟩
    ⟨"a", "1-0", "t", "c", "2020"⟩ ⟨"a", "rev-3", "T2", "c", "2020"⟩
    rfl rfl rfl
